import Mathlib

/-!
Shallow embedding of `crates/optimism/consensus/src/validation.rs`: post-execution
block validation for the OP-stack consensus client.  The three functions of the
source file (`validate_block_post_execution`, `verify_receipts`,
`compare_receipts_root_and_logs_bloom`) are translated directly; the external
collaborators they call (the chain-spec fork gate, the trie-root calculator, the
per-receipt bloom construction and the per-transaction gas breakdown) live in
other crates and are modelled from the specification.
-/

/-- A 32-byte digest (Rust `B256`), modelled as a natural number below `2 ^ 256`.
Only equality of digests is ever consulted by the validator. -/
abbrev B256 := Nat

/-- A 2048-bit logs bloom (Rust `Bloom`), modelled as a natural number; the
bitwise OR of the Rust type is `Nat.lor`. -/
abbrev Bloom := Nat

/-- The all-zero bloom, `Bloom::ZERO`. -/
def Bloom.ZERO : Bloom := 0

/-- A single emitted log: the emitting address and the list of topics. -/
structure Log where
  address : Nat
  topics : List Nat
  deriving Repr, DecidableEq

/-- One execution receipt (the fields of the Rust `Receipt` consulted here):
success flag, cumulative gas used so far in the block, the emitted logs, and the
optional rollup deposit nonce that post-upgrade receipt encoding commits to. -/
structure Receipt where
  success : Bool
  cumulative_gas_used : Nat
  logs : List Log
  deposit_nonce : Option Nat
  deriving Repr, DecidableEq

/-- A receipt paired with its per-receipt bloom (Rust `ReceiptWithBloom`). -/
structure ReceiptWithBloom where
  receipt : Receipt
  bloom : Bloom
  deriving Repr, DecidableEq

/-- The header fields of `BlockWithSenders` consulted by the validator. -/
structure Header where
  number : Nat
  timestamp : Nat
  receipts_root : B256
  logs_bloom : Bloom
  gas_used : Nat
  deriving Repr, DecidableEq

/-- A block with senders resolved; only its header fields are read by
`validate_block_post_execution` (`block.timestamp` and `block.gas_used`
dereference to the header in Rust). -/
structure BlockWithSenders where
  header : Header
  deriving Repr, DecidableEq

/-- Chain configuration, as consulted here: the Byzantium activation height
(`None` when the fork is never scheduled) and the timestamp of the rollup
receipt-encoding upgrade passed through to the root calculator. -/
structure ChainSpec where
  byzantium_block : Option Nat
  canyon_time : Option Nat
  deriving Repr, DecidableEq

/-- Modelled from the spec: the fork gate `ChainSpec::is_byzantium_active_at_block`
(from `reth_primitives`, not part of this crate's sources) — a pure predicate
that reports whether the fork is active at the given height: active exactly when
the height is at or above the scheduled activation height. -/
def ChainSpec.is_byzantium_active_at_block (cs : ChainSpec) (number : Nat) : Bool :=
  match cs.byzantium_block with
  | some b => decide (b ≤ number)
  | none => false

/-- Modelled from the spec: the per-log bloom contribution — each log contributes
its emitting address and every topic, each mapped into the 2048-bit space by the
take-3-hash-segments convention.  The external hash is stood in for by the
identity, read off in three base-2048 segments. -/
def logBloomContribution (l : Log) : Bloom :=
  (l.address :: l.topics).foldl
    (fun acc x =>
      acc ||| (2 ^ (x % 2048) ||| (2 ^ (x / 2048 % 2048) ||| 2 ^ (x / 2048 / 2048 % 2048))))
    0

/-- Modelled from the spec: the per-receipt bloom, built by folding the bloom
contribution of each of the receipt's logs (this is the `Receipt → ReceiptWithBloom`
conversion `r.clone().into()` performed in `verify_receipts`). -/
def bloomFromLogs (logs : List Log) : Bloom :=
  logs.foldl (fun acc l => acc ||| logBloomContribution l) 0

/-- The `Receipt → ReceiptWithBloom` conversion: pair the receipt with the bloom
computed from its logs. -/
def Receipt.withBloom (r : Receipt) : ReceiptWithBloom :=
  ⟨r, bloomFromLogs r.logs⟩

/-- Modelled from the spec: the encoding of one receipt used by the external
trie-root calculator.  Post the timestamp-gated rollup upgrade the encoding
additionally commits to the deposit nonce; the RLP details are opaque to the
validator and are stood in for by a deterministic injective-style combination. -/
def encodeReceiptForRoot (chain_spec : ChainSpec) (timestamp : Nat)
    (r : ReceiptWithBloom) : Nat :=
  (if r.receipt.success then 1 else 0) + 2 * r.receipt.cumulative_gas_used +
    3 * r.bloom +
    (match chain_spec.canyon_time with
     | some t => if t ≤ timestamp then 5 * (r.receipt.deposit_nonce.getD 0) + 7 else 0
     | none => 0)

/-- Modelled from the spec: the external trie-root calculator
`calculate_receipt_root_optimism` (from `reth_primitives::proofs`, not part of
this crate's sources) — a pure, deterministic, order-dependent 32-byte digest of
the ordered receipt-with-bloom sequence, dependent on chain configuration and
block timestamp.  The Merkle-Patricia trie and keccak are stood in for by a
deterministic fold over the encoded receipts. -/
def calculate_receipt_root_optimism (receipts : List ReceiptWithBloom)
    (chain_spec : ChainSpec) (timestamp : Nat) : B256 :=
  (receipts.foldl
      (fun acc r => acc * 1000003 + encodeReceiptForRoot chain_spec timestamp r + 1) 0)
    % 2 ^ 256

/-- Modelled from the spec: `gas_spent_by_transactions` (from `reth_primitives`,
not part of this crate's sources) — the per-transaction gas breakdown: each
transaction's index paired with the gas it spent, i.e. its receipt's cumulative
gas minus the previous receipt's cumulative gas. -/
def gasSpentAux (prev : Nat) (idx : Nat) : List Receipt → List (Nat × Nat)
  | [] => []
  | r :: rs =>
    (idx, r.cumulative_gas_used - prev) :: gasSpentAux r.cumulative_gas_used (idx + 1) rs

/-- Modelled from the spec: see `gasSpentAux`. -/
def gas_spent_by_transactions (receipts : List Receipt) : List (Nat × Nat) :=
  gasSpentAux 0 0 receipts

deriving instance DecidableEq for Except

/-- A pair of a computed (`got`) and a declared (`expected`) value
(Rust `GotExpected`). -/
structure GotExpected (α : Type) where
  got : α
  expected : α
  deriving Repr, DecidableEq

/-- The variants of `ConsensusError` produced by this file: receipts-root
mismatch, logs-bloom mismatch, and gas-used mismatch with its per-transaction
breakdown. -/
inductive ConsensusError where
  | BodyReceiptRootDiff (diff : GotExpected B256)
  | BodyBloomLogDiff (diff : GotExpected Bloom)
  | BlockGasUsed (gas : GotExpected Nat) (gas_spent_by_tx : List (Nat × Nat))
  deriving Repr, DecidableEq

/-- Compare the calculated receipts root with the expected receipts root, also
compare the calculated logs bloom with the expected logs bloom
(`compare_receipts_root_and_logs_bloom` in the source). -/
def compare_receipts_root_and_logs_bloom (calculated_receipts_root : B256)
    (calculated_logs_bloom : Bloom) (expected_receipts_root : B256)
    (expected_logs_bloom : Bloom) : Except ConsensusError Unit :=
  if calculated_receipts_root ≠ expected_receipts_root then
    .error (.BodyReceiptRootDiff
      ⟨calculated_receipts_root, expected_receipts_root⟩)
  else if calculated_logs_bloom ≠ expected_logs_bloom then
    .error (.BodyBloomLogDiff ⟨calculated_logs_bloom, expected_logs_bloom⟩)
  else
    .ok ()

/-- Verify the calculated receipts root against the expected receipts root
(`verify_receipts` in the source): convert each receipt into a
receipt-with-bloom, compute the root via the external calculator, fold the
per-receipt blooms with bitwise OR starting from `Bloom.ZERO`, and compare both
against the expected values. -/
def verify_receipts (expected_receipts_root : B256) (expected_logs_bloom : Bloom)
    (receipts : List Receipt) (chain_spec : ChainSpec) (timestamp : Nat) :
    Except ConsensusError Unit :=
  let receipts_with_bloom := receipts.map Receipt.withBloom
  let receipts_root :=
    calculate_receipt_root_optimism receipts_with_bloom chain_spec timestamp
  let logs_bloom :=
    receipts_with_bloom.foldl (fun bloom r => bloom ||| r.bloom) Bloom.ZERO
  compare_receipts_root_and_logs_bloom receipts_root logs_bloom
    expected_receipts_root expected_logs_bloom

/-- Validate a block with regard to execution results
(`validate_block_post_execution` in the source): when Byzantium is active at the
block's height, verify receipts root and logs bloom (propagating any error);
then check that the gas used declared in the header matches the last receipt's
cumulative gas (or `0` when there are no receipts). -/
def validate_block_post_execution (block : BlockWithSenders)
    (chain_spec : ChainSpec) (receipts : List Receipt) :
    Except ConsensusError Unit :=
  match
    (if chain_spec.is_byzantium_active_at_block block.header.number then
      verify_receipts block.header.receipts_root block.header.logs_bloom
        receipts chain_spec block.header.timestamp
    else .ok ()) with
  | .error e => .error e
  | .ok () =>
    let cumulative_gas_used :=
      (receipts.getLast?.map Receipt.cumulative_gas_used).getD 0
    if block.header.gas_used ≠ cumulative_gas_used then
      .error (.BlockGasUsed
        ⟨cumulative_gas_used, block.header.gas_used⟩
        (gas_spent_by_transactions receipts))
    else
      .ok ()

/-- The aggregate logs bloom computed inside `verify_receipts`: the fold, in
receipt order starting from the all-zero bloom, of the per-receipt blooms under
bitwise OR (line 57 of the source). -/
def aggregate_logs_bloom (receipts : List Receipt) : Bloom :=
  (receipts.map Receipt.withBloom).foldl (fun bloom r => bloom ||| r.bloom) Bloom.ZERO

/-- Unfolding equation for `verify_receipts`: it compares the externally computed
root and the aggregate bloom against the expected values. -/
theorem verify_receipts_eq (root : B256) (bloom : Bloom) (receipts : List Receipt)
    (chain_spec : ChainSpec) (timestamp : Nat) :
    verify_receipts root bloom receipts chain_spec timestamp =
      compare_receipts_root_and_logs_bloom
        (calculate_receipt_root_optimism (receipts.map Receipt.withBloom)
          chain_spec timestamp)
        (aggregate_logs_bloom receipts) root bloom := rfl

/-- When the receipts verification step is skipped (fork inactive) or passes,
`validate_block_post_execution` reduces to the gas accounting check. -/
theorem validate_gas_branch (block : BlockWithSenders) (chain_spec : ChainSpec)
    (receipts : List Receipt)
    (hv : chain_spec.is_byzantium_active_at_block block.header.number = false ∨
      verify_receipts block.header.receipts_root block.header.logs_bloom receipts
        chain_spec block.header.timestamp = .ok ()) :
    validate_block_post_execution block chain_spec receipts =
      (if block.header.gas_used ≠
          (receipts.getLast?.map Receipt.cumulative_gas_used).getD 0 then
        .error (.BlockGasUsed
          ⟨(receipts.getLast?.map Receipt.cumulative_gas_used).getD 0,
            block.header.gas_used⟩
          (gas_spent_by_transactions receipts))
      else .ok ()) := by
  cases hg : chain_spec.is_byzantium_active_at_block block.header.number with
  | false => simp [validate_block_post_execution, hg]
  | true =>
    rcases hv with hv | hv
    · rw [hv] at hg; cases hg
    · simp [validate_block_post_execution, hg, hv]

/-- When Byzantium is active and the computed root differs from the declared
root, validation fails with `BodyReceiptRootDiff` carrying both values. -/
theorem validate_root_mismatch (block : BlockWithSenders) (chain_spec : ChainSpec)
    (receipts : List Receipt)
    (hact : chain_spec.is_byzantium_active_at_block block.header.number = true)
    (hroot : calculate_receipt_root_optimism (receipts.map Receipt.withBloom)
        chain_spec block.header.timestamp ≠ block.header.receipts_root) :
    validate_block_post_execution block chain_spec receipts =
      .error (.BodyReceiptRootDiff
        ⟨calculate_receipt_root_optimism (receipts.map Receipt.withBloom)
            chain_spec block.header.timestamp, block.header.receipts_root⟩) := by
  have hv := verify_receipts_eq block.header.receipts_root block.header.logs_bloom
    receipts chain_spec block.header.timestamp
  rw [compare_receipts_root_and_logs_bloom, if_pos hroot] at hv
  simp [validate_block_post_execution, hact, hv]

/-- When Byzantium is active, the computed root matches but the aggregate bloom
differs from the declared bloom, validation fails with `BodyBloomLogDiff`
carrying both values. -/
theorem validate_bloom_mismatch (block : BlockWithSenders) (chain_spec : ChainSpec)
    (receipts : List Receipt)
    (hact : chain_spec.is_byzantium_active_at_block block.header.number = true)
    (hroot : calculate_receipt_root_optimism (receipts.map Receipt.withBloom)
        chain_spec block.header.timestamp = block.header.receipts_root)
    (hbloom : aggregate_logs_bloom receipts ≠ block.header.logs_bloom) :
    validate_block_post_execution block chain_spec receipts =
      .error (.BodyBloomLogDiff
        ⟨aggregate_logs_bloom receipts, block.header.logs_bloom⟩) := by
  have hv := verify_receipts_eq block.header.receipts_root block.header.logs_bloom
    receipts chain_spec block.header.timestamp
  rw [compare_receipts_root_and_logs_bloom] at hv
  rw [if_neg (by simpa using hroot), if_pos hbloom] at hv
  simp [validate_block_post_execution, hact, hv]

/-- Folding with bitwise OR is invariant under permutation of the list. -/
theorem foldl_lor_perm (init : Nat) {l1 l2 : List Nat} (h : l1.Perm l2) :
    l1.foldl (fun b x => b ||| x) init = l2.foldl (fun b x => b ||| x) init := by
  induction h generalizing init with
  | nil => rfl
  | cons x _ ih => simpa using ih (init ||| x)
  | swap x y l =>
    simp only [List.foldl]
    rw [Nat.lor_assoc, Nat.lor_comm y x, ← Nat.lor_assoc]
  | trans _ _ ih1 ih2 => exact (ih1 init).trans (ih2 init)

/-- The aggregate bloom is the OR-fold of the per-receipt blooms. -/
theorem aggregate_logs_bloom_as_map_fold (receipts : List Receipt) :
    aggregate_logs_bloom receipts =
      (receipts.map (fun r => (Receipt.withBloom r).bloom)).foldl
        (fun b x => b ||| x) Bloom.ZERO := by
  simp [aggregate_logs_bloom, List.foldl_map]

/-- C1: For every block whose height is below the Byzantium activation height,
`validate_block_post_execution` skips the receipts-root and logs-bloom
verification entirely — whatever root and bloom the header declares, the result
is exactly that of the gas accounting check. -/
theorem validate_skips_receipts_verification_pre_byzantium
    (block : BlockWithSenders) (chain_spec : ChainSpec) (receipts : List Receipt)
    (act : Nat) (hb : chain_spec.byzantium_block = some act)
    (hlt : block.header.number < act) :
    validate_block_post_execution block chain_spec receipts =
      (if block.header.gas_used ≠
          (receipts.getLast?.map Receipt.cumulative_gas_used).getD 0 then
        .error (.BlockGasUsed
          ⟨(receipts.getLast?.map Receipt.cumulative_gas_used).getD 0,
            block.header.gas_used⟩
          (gas_spent_by_transactions receipts))
      else .ok ()) := by
  apply validate_gas_branch
  left
  simp [ChainSpec.is_byzantium_active_at_block, hb]
  omega

/-- C1 witness: a concrete pre-Byzantium block whose declared root and bloom are
junk values is accepted, only gas being checked. -/
theorem validate_skips_pre_byzantium_witness :
    validate_block_post_execution ⟨⟨3, 0, 7, 7, 0⟩⟩ ⟨some 5, none⟩ [] =
      .ok () := by
  have h := validate_skips_receipts_verification_pre_byzantium
    ⟨⟨3, 0, 7, 7, 0⟩⟩ ⟨some 5, none⟩ [] 5 rfl (by decide)
  exact h.trans rfl

/-- C2: For a post-fork block, a computed receipts root differing from the
declared one fails with `BodyReceiptRootDiff` carrying both values; a matching
root with a differing aggregate bloom fails with `BodyBloomLogDiff` carrying
both values — each mismatch yields its own specific variant. -/
theorem post_fork_mismatch_yields_specific_variant
    (block : BlockWithSenders) (chain_spec : ChainSpec) (receipts : List Receipt)
    (hact : chain_spec.is_byzantium_active_at_block block.header.number = true) :
    (calculate_receipt_root_optimism (receipts.map Receipt.withBloom)
        chain_spec block.header.timestamp ≠ block.header.receipts_root →
      validate_block_post_execution block chain_spec receipts =
        .error (.BodyReceiptRootDiff
          ⟨calculate_receipt_root_optimism (receipts.map Receipt.withBloom)
              chain_spec block.header.timestamp, block.header.receipts_root⟩)) ∧
    (calculate_receipt_root_optimism (receipts.map Receipt.withBloom)
        chain_spec block.header.timestamp = block.header.receipts_root →
      aggregate_logs_bloom receipts ≠ block.header.logs_bloom →
      validate_block_post_execution block chain_spec receipts =
        .error (.BodyBloomLogDiff
          ⟨aggregate_logs_bloom receipts, block.header.logs_bloom⟩)) :=
  ⟨fun hroot => validate_root_mismatch block chain_spec receipts hact hroot,
   fun hroot hbloom =>
    validate_bloom_mismatch block chain_spec receipts hact hroot hbloom⟩

/-- C2 witness: a concrete post-fork empty block with a wrong declared root gets
the root-mismatch variant, and one with a correct root but wrong declared bloom
gets the bloom-mismatch variant. -/
theorem post_fork_mismatch_witness :
    validate_block_post_execution ⟨⟨0, 0, 5, 0, 0⟩⟩ ⟨some 0, none⟩ [] =
      .error (.BodyReceiptRootDiff ⟨0, 5⟩) ∧
    validate_block_post_execution ⟨⟨0, 0, 0, 9, 0⟩⟩ ⟨some 0, none⟩ [] =
      .error (.BodyBloomLogDiff ⟨0, 9⟩) :=
  ⟨(post_fork_mismatch_yields_specific_variant
      ⟨⟨0, 0, 5, 0, 0⟩⟩ ⟨some 0, none⟩ [] rfl).1 (by decide),
   (post_fork_mismatch_yields_specific_variant
      ⟨⟨0, 0, 0, 9, 0⟩⟩ ⟨some 0, none⟩ [] rfl).2 rfl (by decide)⟩

/-- C3 counterexample: a post-fork block with an empty receipt sequence and a
zero declared gas-used value is nonetheless rejected (its declared receipts root
does not match the computed one), so "validation fails if and only if the header
declares a nonzero gas-used value" is false as stated. -/
theorem empty_receipts_validation_can_fail_with_zero_gas :
    (⟨⟨0, 0, 1, 0, 0⟩⟩ : BlockWithSenders).header.gas_used = 0 ∧
    validate_block_post_execution ⟨⟨0, 0, 1, 0, 0⟩⟩ ⟨some 0, none⟩ [] =
      .error (.BodyReceiptRootDiff ⟨0, 1⟩) ∧
    validate_block_post_execution ⟨⟨0, 0, 1, 0, 0⟩⟩ ⟨some 0, none⟩ [] ≠
      .ok () := ⟨rfl, rfl, by decide⟩

/-- C3 amended: for a block with an empty receipt sequence the expected total
gas used is 0, and — provided the receipts verification step is skipped or
passes — validation fails if and only if the header declares a nonzero
gas-used value, with the gas error carrying expected gas 0. -/
theorem empty_receipts_gas_check_iff_nonzero
    (block : BlockWithSenders) (chain_spec : ChainSpec)
    (hv : chain_spec.is_byzantium_active_at_block block.header.number = false ∨
      verify_receipts block.header.receipts_root block.header.logs_bloom []
        chain_spec block.header.timestamp = .ok ()) :
    ((([] : List Receipt).getLast?.map Receipt.cumulative_gas_used).getD 0 = 0) ∧
    (validate_block_post_execution block chain_spec [] = .ok () ↔
      block.header.gas_used = 0) ∧
    (block.header.gas_used ≠ 0 →
      validate_block_post_execution block chain_spec [] =
        .error (.BlockGasUsed ⟨0, block.header.gas_used⟩ [])) := by
  rw [validate_gas_branch block chain_spec [] hv]
  refine ⟨rfl, ?_, ?_⟩
  · by_cases h : block.header.gas_used = 0 <;>
      simp [h, gas_spent_by_transactions, gasSpentAux]
  · intro h
    simp [h, gas_spent_by_transactions, gasSpentAux]

/-- C3 amended witness: a pre-fork block declaring gas-used 3 over an empty
receipt sequence is rejected with expected gas 0; one declaring 0 is accepted. -/
theorem empty_receipts_gas_check_witness :
    ((([] : List Receipt).getLast?.map Receipt.cumulative_gas_used).getD 0 = 0) ∧
    (validate_block_post_execution ⟨⟨0, 0, 0, 0, 3⟩⟩ ⟨none, none⟩ [] = .ok () ↔
      (3 : Nat) = 0) ∧
    ((3 : Nat) ≠ 0 →
      validate_block_post_execution ⟨⟨0, 0, 0, 0, 3⟩⟩ ⟨none, none⟩ [] =
        .error (.BlockGasUsed ⟨0, 3⟩ [])) :=
  empty_receipts_gas_check_iff_nonzero ⟨⟨0, 0, 0, 0, 3⟩⟩ ⟨none, none⟩ (Or.inl rfl)

/-- C4: For a non-empty receipt sequence (fork gate off or receipts verification
passing), the gas accounting check passes exactly when the last receipt's
cumulative gas equals the header's declared gas used, whatever the earlier
receipts carry. -/
theorem gas_check_depends_only_on_last_receipt
    (block : BlockWithSenders) (chain_spec : ChainSpec)
    (receipts : List Receipt) (last : Receipt)
    (hlast : receipts.getLast? = some last)
    (hv : chain_spec.is_byzantium_active_at_block block.header.number = false ∨
      verify_receipts block.header.receipts_root block.header.logs_bloom receipts
        chain_spec block.header.timestamp = .ok ()) :
    validate_block_post_execution block chain_spec receipts = .ok () ↔
      block.header.gas_used = last.cumulative_gas_used := by
  rw [validate_gas_branch block chain_spec receipts hv, hlast]
  by_cases h : block.header.gas_used = last.cumulative_gas_used <;> simp [h]

/-- C4 witness: with receipts of cumulative gas 5 then 9 and a header declaring
9, validation succeeds; the earlier receipt's value is irrelevant. -/
theorem gas_check_last_receipt_witness :
    validate_block_post_execution ⟨⟨0, 0, 0, 0, 9⟩⟩ ⟨none, none⟩
        [⟨true, 5, [], none⟩, ⟨true, 9, [], none⟩] = .ok () ↔
      (9 : Nat) = 9 :=
  gas_check_depends_only_on_last_receipt ⟨⟨0, 0, 0, 0, 9⟩⟩ ⟨none, none⟩
    [⟨true, 5, [], none⟩, ⟨true, 9, [], none⟩] ⟨true, 9, [], none⟩ rfl (Or.inl rfl)

/-- C5: Validation short-circuits — when Byzantium is active and the receipts
verification step fails, `validate_block_post_execution` returns exactly that
error and the gas accounting check is never reached, whatever the gas values. -/
theorem validation_short_circuits_on_receipt_verification_failure
    (block : BlockWithSenders) (chain_spec : ChainSpec) (receipts : List Receipt)
    (e : ConsensusError)
    (hact : chain_spec.is_byzantium_active_at_block block.header.number = true)
    (hfail : verify_receipts block.header.receipts_root block.header.logs_bloom
        receipts chain_spec block.header.timestamp = .error e) :
    validate_block_post_execution block chain_spec receipts = .error e := by
  simp [validate_block_post_execution, hact, hfail]

/-- C5 witness: a post-fork block with both a root mismatch and a gas mismatch
(declared gas 777 against computed 0) reports only the root error. -/
theorem validation_short_circuits_witness :
    (⟨⟨0, 0, 5, 0, 777⟩⟩ : BlockWithSenders).header.gas_used ≠
      (([] : List Receipt).getLast?.map Receipt.cumulative_gas_used).getD 0 ∧
    validate_block_post_execution ⟨⟨0, 0, 5, 0, 777⟩⟩ ⟨some 0, none⟩ [] =
      .error (.BodyReceiptRootDiff ⟨0, 5⟩) :=
  ⟨by decide,
   validation_short_circuits_on_receipt_verification_failure
     ⟨⟨0, 0, 5, 0, 777⟩⟩ ⟨some 0, none⟩ [] (.BodyReceiptRootDiff ⟨0, 5⟩) rfl rfl⟩

/-- C6: The aggregate logs bloom is the fold, in receipt order starting from the
all-zero bloom, of the per-receipt blooms under bitwise OR; and permuting the
receipt sequence leaves the aggregate bloom unchanged. -/
theorem aggregate_bloom_fold_and_perm_invariance
    (receipts receipts' : List Receipt) (hperm : receipts.Perm receipts') :
    aggregate_logs_bloom receipts =
      (receipts.map (fun r => (Receipt.withBloom r).bloom)).foldl
        (fun b x => b ||| x) Bloom.ZERO ∧
    aggregate_logs_bloom receipts' = aggregate_logs_bloom receipts := by
  refine ⟨aggregate_logs_bloom_as_map_fold receipts, ?_⟩
  rw [aggregate_logs_bloom_as_map_fold receipts,
    aggregate_logs_bloom_as_map_fold receipts']
  exact foldl_lor_perm Bloom.ZERO
    (hperm.map (fun r => (Receipt.withBloom r).bloom)).symm

/-- C6 witness: two receipts with distinct one-log blooms give the same
aggregate bloom in either order. -/
theorem aggregate_bloom_perm_witness :
    aggregate_logs_bloom [⟨true, 1, [⟨0, []⟩], none⟩, ⟨true, 2, [⟨1, []⟩], none⟩] =
      (([⟨true, 1, [⟨0, []⟩], none⟩, ⟨true, 2, [⟨1, []⟩], none⟩] : List Receipt).map
          (fun r => (Receipt.withBloom r).bloom)).foldl
        (fun b x => b ||| x) Bloom.ZERO ∧
    aggregate_logs_bloom [⟨true, 2, [⟨1, []⟩], none⟩, ⟨true, 1, [⟨0, []⟩], none⟩] =
      aggregate_logs_bloom
        [⟨true, 1, [⟨0, []⟩], none⟩, ⟨true, 2, [⟨1, []⟩], none⟩] :=
  aggregate_bloom_fold_and_perm_invariance
    [⟨true, 1, [⟨0, []⟩], none⟩, ⟨true, 2, [⟨1, []⟩], none⟩]
    [⟨true, 2, [⟨1, []⟩], none⟩, ⟨true, 1, [⟨0, []⟩], none⟩]
    (List.Perm.swap _ _ _)

/-- C7: Validation is deterministic — the expected receipts root is a pure
function of the ordered receipts, the chain configuration and the block
timestamp, and `validate_block_post_execution` yields identical outcomes on
identical inputs. -/
theorem validation_deterministic
    (b1 b2 : BlockWithSenders) (cs1 cs2 : ChainSpec) (rs1 rs2 : List Receipt)
    (hb : b1 = b2) (hcs : cs1 = cs2) (hrs : rs1 = rs2) :
    calculate_receipt_root_optimism (rs1.map Receipt.withBloom) cs1
        b1.header.timestamp =
      calculate_receipt_root_optimism (rs2.map Receipt.withBloom) cs2
        b2.header.timestamp ∧
    validate_block_post_execution b1 cs1 rs1 =
      validate_block_post_execution b2 cs2 rs2 := by
  subst hb; subst hcs; subst hrs
  exact ⟨rfl, rfl⟩

/-- C7 witness: two invocations on the same concrete block, configuration and
receipts agree. -/
theorem validation_deterministic_witness :
    calculate_receipt_root_optimism
        (([⟨true, 5, [], none⟩] : List Receipt).map Receipt.withBloom)
        ⟨some 0, some 2⟩ 3 =
      calculate_receipt_root_optimism
        (([⟨true, 5, [], none⟩] : List Receipt).map Receipt.withBloom)
        ⟨some 0, some 2⟩ 3 ∧
    validate_block_post_execution ⟨⟨1, 3, 0, 0, 5⟩⟩ ⟨some 0, some 2⟩
        [⟨true, 5, [], none⟩] =
      validate_block_post_execution ⟨⟨1, 3, 0, 0, 5⟩⟩ ⟨some 0, some 2⟩
        [⟨true, 5, [], none⟩] :=
  validation_deterministic ⟨⟨1, 3, 0, 0, 5⟩⟩ ⟨⟨1, 3, 0, 0, 5⟩⟩
    ⟨some 0, some 2⟩ ⟨some 0, some 2⟩
    [⟨true, 5, [], none⟩] [⟨true, 5, [], none⟩] rfl rfl rfl

/-- C8: With two receipts of cumulative gas 21000 and 42000, a header declaring
gas used 42000 passes, while one declaring 42001 fails with `BlockGasUsed`
carrying got 42000, expected 42001 and the per-transaction gas breakdown. -/
theorem concrete_gas_scenario :
    validate_block_post_execution ⟨⟨0, 0, 0, 0, 42000⟩⟩ ⟨none, none⟩
      [⟨true, 21000, [], none⟩, ⟨true, 42000, [], none⟩] = .ok () ∧
    validate_block_post_execution ⟨⟨0, 0, 0, 0, 42001⟩⟩ ⟨none, none⟩
      [⟨true, 21000, [], none⟩, ⟨true, 42000, [], none⟩] =
      .error (.BlockGasUsed ⟨42000, 42001⟩ [(0, 21000), (1, 21000)]) :=
  ⟨rfl, rfl⟩

/-- C9: Within the post-fork verification step the root comparison comes first:
when both the computed root and the computed bloom differ from the declared
values, validation returns the root-mismatch variant and never the
bloom-mismatch variant. -/
theorem root_check_precedes_bloom_check
    (block : BlockWithSenders) (chain_spec : ChainSpec) (receipts : List Receipt)
    (hact : chain_spec.is_byzantium_active_at_block block.header.number = true)
    (hroot : calculate_receipt_root_optimism (receipts.map Receipt.withBloom)
        chain_spec block.header.timestamp ≠ block.header.receipts_root)
    (hbloom : aggregate_logs_bloom receipts ≠ block.header.logs_bloom) :
    validate_block_post_execution block chain_spec receipts =
      .error (.BodyReceiptRootDiff
        ⟨calculate_receipt_root_optimism (receipts.map Receipt.withBloom)
            chain_spec block.header.timestamp, block.header.receipts_root⟩) ∧
    ∀ d : GotExpected Bloom,
      validate_block_post_execution block chain_spec receipts ≠
        .error (.BodyBloomLogDiff d) := by
  have h := validate_root_mismatch block chain_spec receipts hact hroot
  refine ⟨h, fun d hc => ?_⟩
  rw [h] at hc
  cases hc

/-- C9 witness: a post-fork empty block whose declared root and bloom are both
wrong reports the root mismatch, not the bloom mismatch. -/
theorem root_check_precedes_bloom_check_witness :
    validate_block_post_execution ⟨⟨0, 0, 5, 9, 0⟩⟩ ⟨some 0, none⟩ [] =
      .error (.BodyReceiptRootDiff ⟨0, 5⟩) ∧
    ∀ d : GotExpected Bloom,
      validate_block_post_execution ⟨⟨0, 0, 5, 9, 0⟩⟩ ⟨some 0, none⟩ [] ≠
        .error (.BodyBloomLogDiff d) :=
  root_check_precedes_bloom_check ⟨⟨0, 0, 5, 9, 0⟩⟩ ⟨some 0, none⟩ []
    rfl (by decide) (by decide)

/-- C10: The aggregate bloom of an empty receipt sequence is the all-zero bloom,
and for a post-fork block with no receipts whose declared root matches the
computed one, the receipts verification passes exactly when the header declares
the all-zero bloom. -/
theorem empty_receipts_zero_bloom
    (root : B256) (bloom : Bloom) (chain_spec : ChainSpec) (timestamp : Nat)
    (hroot : root = calculate_receipt_root_optimism [] chain_spec timestamp) :
    aggregate_logs_bloom [] = Bloom.ZERO ∧
    (verify_receipts root bloom [] chain_spec timestamp = .ok () ↔
      bloom = Bloom.ZERO) := by
  subst hroot
  refine ⟨rfl, ?_⟩
  rw [verify_receipts_eq]
  by_cases h : bloom = Bloom.ZERO
  · simp [compare_receipts_root_and_logs_bloom, h, aggregate_logs_bloom,
      calculate_receipt_root_optimism]
  · simp only [compare_receipts_root_and_logs_bloom]
    rw [if_neg (by simp [calculate_receipt_root_optimism]),
      if_pos (by simpa [aggregate_logs_bloom, Bloom.ZERO, eq_comm] using h)]
    simp [h]

/-- C10 witness: with no receipts, declared root 0 (the computed root) and
declared bloom 0, verification succeeds, and the aggregate bloom is zero. -/
theorem empty_receipts_zero_bloom_witness :
    aggregate_logs_bloom [] = Bloom.ZERO ∧
    (verify_receipts 0 0 [] ⟨some 0, none⟩ 0 = .ok () ↔
      (0 : Bloom) = Bloom.ZERO) :=
  empty_receipts_zero_bloom 0 0 ⟨some 0, none⟩ 0 rfl
